import Mathlib

/-!
# Verification of `scripts/lighter_signer_bridge.py`

Shallow embedding of the stdin/stdout JSON-RPC bridge to the Lighter signer
library.  The native signer library (`LIB`) is external, so it is modelled as
an oracle (`Backend`): a record of pure functions, one per exported symbol.
Every call the bridge makes into the oracle is additionally recorded in a
trace (`BCall` events), so that claims about which backend operations run,
and in which order, can be stated as facts about the trace.

Python-level behaviour that the bridge relies on (dict lookup raising
`KeyError`, `int(...)` raising `TypeError`/`ValueError`, `.encode` raising
`AttributeError`, `dict.get` raising `TypeError` on unhashable keys) is
modelled with `Except String`: a `Except.error` value is an uncaught Python
exception carrying (an approximation of) its message.  Only the prefixes the
bridge itself adds (`invalid_json:`, `unknown_method:`, `exception:`) are
reproduced exactly; the exception detail texts are approximations and no
theorem depends on their exact content.
-/

/-- A JSON value as produced by `json.loads`.  Numbers are modelled as
integers (the bridge only ever converts numeric fields with `int(...)`). -/
inductive Json where
  | null
  | bool (b : Bool)
  | num (n : Int)
  | str (s : String)
  | arr (elems : List Json)
  | obj (fields : List (String × Json))
deriving Repr

/-- Python `params[key]` on a decoded JSON value: a `KeyError` when the key is
missing from a dict, a `TypeError` when the value is not a dict. -/
def pyGetItem (params : Json) (key : String) : Except String Json :=
  match params with
  | Json.obj fields =>
    match fields.lookup key with
    | some v => Except.ok v
    | none => Except.error ("KeyError: " ++ key)
  | _ => Except.error "TypeError: object is not subscriptable"

/-- Python `key in params` for a decoded JSON value.  The bridge only reaches
this test after `params["apiKeyIndex"]` has succeeded, i.e. when `params` is a
dict, so the non-dict cases are unreachable in every handler. -/
def pyContains (params : Json) (key : String) : Bool :=
  match params with
  | Json.obj fields => (fields.lookup key).isSome
  | _ => false

/-- Python `int(...)` on a decoded JSON value: ints pass through, booleans
become 0/1, numeric strings are parsed, everything else raises. -/
def pyInt (v : Json) : Except String Int :=
  match v with
  | Json.num n => Except.ok n
  | Json.bool b => Except.ok (if b then 1 else 0)
  | Json.str s =>
    match s.toInt? with
    | some n => Except.ok n
    | none => Except.error ("ValueError: invalid literal for int: " ++ s)
  | _ => Except.error "TypeError: int() argument is not a string or number"

/-- Python `int(params[key])`, as every handler writes it. -/
def pyGetInt (params : Json) (key : String) : Except String Int :=
  match pyGetItem params key with
  | Except.ok v => pyInt v
  | Except.error e => Except.error e

/-- Python `v.encode("utf-8")`: succeeds exactly on strings, raises
`AttributeError` otherwise. -/
def pyEncode (v : Json) : Except String String :=
  match v with
  | Json.str s => Except.ok s
  | _ => Except.error "AttributeError: object has no attribute encode"

/-- Python `f"{v}"` for the JSON values that can reach the
`unknown_method:{method}` format string (arrays/dicts crash earlier on the
`HANDLERS.get` hash, so their rendering is never observed). -/
def pyStr (v : Json) : String :=
  match v with
  | Json.null => "None"
  | Json.bool true => "True"
  | Json.bool false => "False"
  | Json.num n => toString n
  | Json.str s => s
  | Json.arr _ => "<list>"
  | Json.obj _ => "<dict>"

/-- Whether a JSON value is hashable in Python (usable as a `dict.get` key).
Lists and dicts are unhashable: `HANDLERS.get(method)` raises `TypeError`. -/
def jsonHashable (v : Json) : Bool :=
  match v with
  | Json.arr _ => false
  | Json.obj _ => false
  | _ => true

/-- The C struct returned by the signing entry points of the native library:
`{str: char*, err: char*}`, each pointer possibly NULL. -/
structure StrOrErr where
  str : Option String
  err : Option String
deriving Repr

/-- A Python handler-result dict.  The bridge only ever builds dicts with some
of the keys `result`, `error`, `id`; a `none` field is an absent key.  For
`result`, `some none` is a present key holding JSON `null`. -/
structure RDict where
  result : Option (Option String) := none
  error : Option String := none
  id : Option Json := none
deriving Repr

/-- `{"result": v}` -/
def RDict.res (v : Option String) : RDict := { result := some v }

/-- `{"error": e}` -/
def RDict.err (e : String) : RDict := { error := some e }

/-- `_unwrap(result)`: error pointer wins, then payload, else JSON null. -/
def unwrap (result : StrOrErr) : RDict :=
  match result.err with
  | some e => RDict.err e
  | none =>
    match result.str with
    | some s => RDict.res (some s)
    | none => RDict.res none

/-- `_maybe_error(ptr)`: a non-NULL pointer is an error, NULL means `ok`. -/
def maybe_error (ptr : Option String) : RDict :=
  match ptr with
  | some e => RDict.err e
  | none => RDict.res (some "ok")

/-- The per-index client configuration stored in `_CLIENT_CONFIG`.
`baseUrl`/`privateKey` are stored as the raw JSON values taken from params
(they are only `.encode`d when the registration call is made); `chainId` and
`accountIndex` are stored already converted by `int(...)`. -/
structure ClientConfig where
  baseUrl : Json
  privateKey : Json
  chainId : Int
  accountIndex : Int
deriving Repr

/-- One call into the native signer library, with the arguments passed. -/
inductive BCall where
  | createClient (baseUrl privateKey : String) (chainId apiKeyIndex accountIndex : Int)
  | switchAPIKey (apiKeyIndex : Int)
  | signCreateOrder (marketIndex clientOrderIndex baseAmount price isAsk orderType
      timeInForce reduceOnly triggerPrice orderExpiry nonce : Int)
  | signCancelOrder (marketIndex orderIndex nonce : Int)
  | signCancelAllOrders (timeInForce scheduledTime nonce : Int)
  | createAuthToken (deadlineMs : Int)
deriving Repr

/-- The mutable process state: `_CLIENT_CONFIG` (an assoc list where the most
recent binding for an index shadows older ones, matching dict overwrite),
`_INITIALISED_KEYS` (membership is what matters), and the trace of backend
calls made so far. -/
structure BridgeState where
  clientConfig : List (Int × ClientConfig)
  initialisedKeys : List Int
  trace : List BCall
deriving Repr

/-- Record one backend call at the end of the trace. -/
def BridgeState.emit (st : BridgeState) (c : BCall) : BridgeState :=
  { st with trace := st.trace ++ [c] }

/-- The state at process start: empty registry, empty trace. -/
def initState : BridgeState := { clientConfig := [], initialisedKeys := [], trace := [] }

/-- The native signer library, as an oracle: each exported function maps its
arguments to the value the C call returns.  `createClient`/`switchAPIKey`
return a possibly-NULL error pointer, the rest return a `StrOrErr`. -/
structure Backend where
  createClient : String → String → Int → Int → Int → Option String
  switchAPIKey : Int → Option String
  signCreateOrder : Int → Int → Int → Int → Int → Int → Int → Int → Int → Int → Int → StrOrErr
  signCancelOrder : Int → Int → Int → StrOrErr
  signCancelAllOrders : Int → Int → Int → StrOrErr
  createAuthToken : Int → StrOrErr

/-- Lines 125-137 of `_ensure_client`: encode the stored configuration, call
`LIB.CreateClient`, and on success mark the index initialised. -/
def register_client (B : Backend) (config : ClientConfig) (api_key_index : Int)
    (st : BridgeState) : Except String RDict × BridgeState :=
  match pyEncode config.baseUrl with
  | Except.error e => (Except.error e, st)
  | Except.ok baseUrl =>
    match pyEncode config.privateKey with
    | Except.error e => (Except.error e, st)
    | Except.ok privateKey =>
      let st1 := st.emit (BCall.createClient baseUrl privateKey config.chainId
        api_key_index config.accountIndex)
      match B.createClient baseUrl privateKey config.chainId api_key_index
          config.accountIndex with
      | some e => (Except.ok (RDict.err e), st1)
      | none => (Except.ok (RDict.res (some "ok")),
          { st1 with initialisedKeys := api_key_index :: st1.initialisedKeys })

/-- `_ensure_client(params)`.  Reads `apiKeyIndex`, optionally overwrites the
stored configuration when both `baseUrl` and `privateKey` are supplied inline
(building the config dict evaluates `int(params["chainId"])` and
`int(params["accountIndex"])` left to right, so a missing field raises before
anything is stored), fails with `client_not_initialized` when no configuration
exists, short-circuits for already-initialised indices, and otherwise
registers via `register_client`. -/
def ensure_client (B : Backend) (params : Json) (st : BridgeState) :
    Except String RDict × BridgeState :=
  match pyGetInt params "apiKeyIndex" with
  | Except.error e => (Except.error e, st)
  | Except.ok api_key_index =>
    if pyContains params "baseUrl" && pyContains params "privateKey" then
      match pyGetItem params "baseUrl" with
      | Except.error e => (Except.error e, st)
      | Except.ok baseUrl =>
        match pyGetItem params "privateKey" with
        | Except.error e => (Except.error e, st)
        | Except.ok privateKey =>
          match pyGetInt params "chainId" with
          | Except.error e => (Except.error e, st)
          | Except.ok chainId =>
            match pyGetInt params "accountIndex" with
            | Except.error e => (Except.error e, st)
            | Except.ok accountIndex =>
              let config : ClientConfig :=
                { baseUrl := baseUrl, privateKey := privateKey,
                  chainId := chainId, accountIndex := accountIndex }
              let st1 := { st with
                clientConfig := (api_key_index, config) :: st.clientConfig }
              if api_key_index ∈ st1.initialisedKeys then
                (Except.ok (RDict.res (some "ok")), st1)
              else
                register_client B config api_key_index st1
    else
      match st.clientConfig.lookup api_key_index with
      | none => (Except.ok (RDict.err "client_not_initialized"), st)
      | some config =>
        if api_key_index ∈ st.initialisedKeys then
          (Except.ok (RDict.res (some "ok")), st)
        else
          register_client B config api_key_index st

/-- `_switch_api_key(api_key_index)`: one `LIB.SwitchAPIKey` call. -/
def switch_api_key (B : Backend) (api_key_index : Int) (st : BridgeState) :
    RDict × BridgeState :=
  (maybe_error (B.switchAPIKey api_key_index), st.emit (BCall.switchAPIKey api_key_index))

/-- `handle_create_client(params)`. -/
def handle_create_client (B : Backend) (params : Json) (st : BridgeState) :
    Except String RDict × BridgeState :=
  ensure_client B params st

/-- The argument conversions of `handle_sign_create_order`, in Python
evaluation order: `expiry` is computed on its own line before the call, the
remaining `int(params[...])` conversions run left to right as arguments. -/
def signCreateOrderArgs (params : Json) :
    Except String (Int × Int × Int × Int × Int × Int × Int × Int × Int × Int × Int) := do
  let expiry ← pyGetInt params "orderExpiry"
  let marketIndex ← pyGetInt params "marketIndex"
  let clientOrderIndex ← pyGetInt params "clientOrderIndex"
  let baseAmount ← pyGetInt params "baseAmount"
  let price ← pyGetInt params "price"
  let isAsk ← pyGetInt params "isAsk"
  let orderType ← pyGetInt params "orderType"
  let timeInForce ← pyGetInt params "timeInForce"
  let reduceOnly ← pyGetInt params "reduceOnly"
  let triggerPrice ← pyGetInt params "triggerPrice"
  let nonce ← pyGetInt params "nonce"
  pure (marketIndex, clientOrderIndex, baseAmount, price, isAsk, orderType,
    timeInForce, reduceOnly, triggerPrice, expiry, nonce)

/-- `handle_sign_create_order(params)`. -/
def handle_sign_create_order (B : Backend) (params : Json) (st : BridgeState) :
    Except String RDict × BridgeState :=
  match ensure_client B params st with
  | (Except.error e, st1) => (Except.error e, st1)
  | (Except.ok ensure, st1) =>
    if ensure.error.isSome then (Except.ok ensure, st1)
    else
      match pyGetInt params "apiKeyIndex" with
      | Except.error e => (Except.error e, st1)
      | Except.ok api_key_index =>
        let (switched, st2) := switch_api_key B api_key_index st1
        if switched.error.isSome then (Except.ok switched, st2)
        else
          match signCreateOrderArgs params with
          | Except.error e => (Except.error e, st2)
          | Except.ok (mi, coi, ba, price, isAsk, ot, tif, ro, tp, expiry, nonce) =>
            (Except.ok (unwrap (B.signCreateOrder mi coi ba price isAsk ot tif ro tp
                expiry nonce)),
             st2.emit (BCall.signCreateOrder mi coi ba price isAsk ot tif ro tp
                expiry nonce))

/-- The argument conversions of `handle_sign_cancel_order`, left to right. -/
def signCancelOrderArgs (params : Json) : Except String (Int × Int × Int) := do
  let marketIndex ← pyGetInt params "marketIndex"
  let orderIndex ← pyGetInt params "orderIndex"
  let nonce ← pyGetInt params "nonce"
  pure (marketIndex, orderIndex, nonce)

/-- `handle_sign_cancel_order(params)`. -/
def handle_sign_cancel_order (B : Backend) (params : Json) (st : BridgeState) :
    Except String RDict × BridgeState :=
  match ensure_client B params st with
  | (Except.error e, st1) => (Except.error e, st1)
  | (Except.ok ensure, st1) =>
    if ensure.error.isSome then (Except.ok ensure, st1)
    else
      match pyGetInt params "apiKeyIndex" with
      | Except.error e => (Except.error e, st1)
      | Except.ok api_key_index =>
        let (switched, st2) := switch_api_key B api_key_index st1
        if switched.error.isSome then (Except.ok switched, st2)
        else
          match signCancelOrderArgs params with
          | Except.error e => (Except.error e, st2)
          | Except.ok (mi, oi, nonce) =>
            (Except.ok (unwrap (B.signCancelOrder mi oi nonce)),
             st2.emit (BCall.signCancelOrder mi oi nonce))

/-- The argument conversions of `handle_sign_cancel_all`, left to right. -/
def signCancelAllArgs (params : Json) : Except String (Int × Int × Int) := do
  let timeInForce ← pyGetInt params "timeInForce"
  let scheduledTime ← pyGetInt params "scheduledTime"
  let nonce ← pyGetInt params "nonce"
  pure (timeInForce, scheduledTime, nonce)

/-- `handle_sign_cancel_all(params)`. -/
def handle_sign_cancel_all (B : Backend) (params : Json) (st : BridgeState) :
    Except String RDict × BridgeState :=
  match ensure_client B params st with
  | (Except.error e, st1) => (Except.error e, st1)
  | (Except.ok ensure, st1) =>
    if ensure.error.isSome then (Except.ok ensure, st1)
    else
      match pyGetInt params "apiKeyIndex" with
      | Except.error e => (Except.error e, st1)
      | Except.ok api_key_index =>
        let (switched, st2) := switch_api_key B api_key_index st1
        if switched.error.isSome then (Except.ok switched, st2)
        else
          match signCancelAllArgs params with
          | Except.error e => (Except.error e, st2)
          | Except.ok (tif, sched, nonce) =>
            (Except.ok (unwrap (B.signCancelAllOrders tif sched nonce)),
             st2.emit (BCall.signCancelAllOrders tif sched nonce))

/-- `handle_create_auth_token(params)`. -/
def handle_create_auth_token (B : Backend) (params : Json) (st : BridgeState) :
    Except String RDict × BridgeState :=
  match ensure_client B params st with
  | (Except.error e, st1) => (Except.error e, st1)
  | (Except.ok ensure, st1) =>
    if ensure.error.isSome then (Except.ok ensure, st1)
    else
      match pyGetInt params "apiKeyIndex" with
      | Except.error e => (Except.error e, st1)
      | Except.ok api_key_index =>
        let (switched, st2) := switch_api_key B api_key_index st1
        if switched.error.isSome then (Except.ok switched, st2)
        else
          match pyGetInt params "deadlineMs" with
          | Except.error e => (Except.error e, st2)
          | Except.ok deadlineMs =>
            (Except.ok (unwrap (B.createAuthToken deadlineMs)),
             st2.emit (BCall.createAuthToken deadlineMs))

/-- The keys of the `HANDLERS` dict, in source order. -/
def methodNames : List String :=
  ["create_client", "sign_create_order", "sign_cancel_order", "sign_cancel_all",
   "create_auth_token"]

/-- The four signing/auth methods (all registered methods except
`create_client`). -/
def signMethods : List String :=
  ["sign_create_order", "sign_cancel_order", "sign_cancel_all", "create_auth_token"]

/-- `HANDLERS.get(name)` for a string key. -/
def dispatch (B : Backend) :
    String → Option (Json → BridgeState → Except String RDict × BridgeState)
  | "create_client" => some (handle_create_client B)
  | "sign_create_order" => some (handle_sign_create_order B)
  | "sign_cancel_order" => some (handle_sign_cancel_order B)
  | "sign_cancel_all" => some (handle_sign_cancel_all B)
  | "create_auth_token" => some (handle_create_auth_token B)
  | _ => none

/-- `HANDLERS.get(method)` for an arbitrary hashable JSON method value: the
dict's keys are all strings, so only a string can match. -/
def handlerFor (B : Backend) :
    Json → Option (Json → BridgeState → Except String RDict × BridgeState)
  | Json.str m => dispatch B m
  | _ => none

/-- `request.get(key, default)` on a decoded JSON object. -/
def reqGet (fields : List (String × Json)) (key : String) (default : Json) : Json :=
  (fields.lookup key).getD default

/-- `outcome.setdefault("id", req_id)`. -/
def RDict.setId (r : RDict) (req_id : Json) : RDict :=
  match r.id with
  | some _ => r
  | none => { r with id := some req_id }

/-- One input line of `main`'s loop, abstracted past `line.strip()` and
`json.loads(line)`: either blank after stripping, or `json.loads` raised
`JSONDecodeError` with the given detail, or it decoded to a JSON value. -/
inductive LineIn where
  | blank
  | malformed (detail : String)
  | parsed (request : Json)
deriving Repr

/-- The body of `main`'s `for` loop for one line.  `Except.ok none` is a
skipped blank line (no output), `Except.ok (some r, st')` is one emitted
response, `Except.error msg` is an uncaught Python exception escaping the
loop (terminating the process): `request.get` on a non-dict raises
`AttributeError`, and `HANDLERS.get(method)` on an unhashable method raises
`TypeError` — neither is inside a `try`. -/
def processLine (B : Backend) (st : BridgeState) :
    LineIn → Except String (Option RDict × BridgeState)
  | LineIn.blank => Except.ok (none, st)
  | LineIn.malformed detail =>
    Except.ok (some { id := some Json.null, error := some ("invalid_json:" ++ detail) }, st)
  | LineIn.parsed request =>
    match request with
    | Json.obj fields =>
      let req_id := reqGet fields "id" Json.null
      let method := reqGet fields "method" Json.null
      let params := reqGet fields "params" (Json.obj [])
      if jsonHashable method then
        match handlerFor B method with
        | none =>
          Except.ok
            (some { id := some req_id, error := some ("unknown_method:" ++ pyStr method) }, st)
        | some handler =>
          match handler params st with
          | (Except.error exc, st') =>
            Except.ok
              (some { id := some req_id, error := some ("exception:" ++ exc) }, st')
          | (Except.ok outcome, st') =>
            Except.ok (some (outcome.setId req_id), st')
      else Except.error "TypeError: unhashable type"
    | _ => Except.error "AttributeError: object has no attribute get"

/-- `main()`: fold `processLine` over the input lines, collecting emitted
responses.  The third component records an uncaught exception: when it is
`some msg`, the loop died at that line and the remaining lines were never
read. -/
def runLines (B : Backend) (st : BridgeState) :
    List LineIn → List RDict × BridgeState × Option String
  | [] => ([], st, none)
  | l :: ls =>
    match processLine B st l with
    | Except.error exc => ([], st, some exc)
    | Except.ok (none, st') => runLines B st' ls
    | Except.ok (some r, st') =>
      let rest := runLines B st' ls
      (r :: rest.1, rest.2)

/-! ## Claim-level vocabulary and concrete fixtures -/

/-- Whether a backend-call event is the operation-specific sign/auth call of
the given method name. -/
def opCall : String → BCall → Bool
  | "sign_create_order", BCall.signCreateOrder _ _ _ _ _ _ _ _ _ _ _ => true
  | "sign_cancel_order", BCall.signCancelOrder _ _ _ => true
  | "sign_cancel_all", BCall.signCancelAllOrders _ _ _ => true
  | "create_auth_token", BCall.createAuthToken _ => true
  | _, _ => false

/-- A test oracle whose every operation succeeds. -/
def okBackend : Backend where
  createClient := fun _ _ _ _ _ => none
  switchAPIKey := fun _ => none
  signCreateOrder := fun _ _ _ _ _ _ _ _ _ _ _ => { str := some "SIGNED", err := none }
  signCancelOrder := fun _ _ _ => { str := some "SIGNED", err := none }
  signCancelAllOrders := fun _ _ _ => { str := some "SIGNED", err := none }
  createAuthToken := fun _ => { str := some "TOKEN", err := none }

/-- A stored configuration used by concrete runs. -/
def storedConfig : ClientConfig :=
  { baseUrl := Json.str "https://x", privateKey := Json.str "0xabc",
    chainId := 1, accountIndex := 5 }

/-- A state in which API-key index 0 is configured and initialised. -/
def readyState : BridgeState :=
  { clientConfig := [(0, storedConfig)], initialisedKeys := [0], trace := [] }

/-- Params carrying a full inline configuration for index 0. -/
def fullConfigParams : Json := Json.obj
  [("apiKeyIndex", Json.num 0), ("baseUrl", Json.str "https://x"),
   ("privateKey", Json.str "0xabc"), ("chainId", Json.num 1),
   ("accountIndex", Json.num 5)]

/-- Params of a well-formed `sign_cancel_order` request for index 0. -/
def cancelOrderParams : Json := Json.obj
  [("apiKeyIndex", Json.num 0), ("marketIndex", Json.num 1),
   ("orderIndex", Json.num 7), ("nonce", Json.num 42)]

/-- A well-formed `create_client` input line, used after a poisoned line to
observe whether processing continues. -/
def goodLine : LineIn := LineIn.parsed (Json.obj
  [("id", Json.num 1), ("method", Json.str "create_client"),
   ("params", fullConfigParams)])

/-- The state after registering index 0 from `fullConfigParams` on the fresh
state against a backend whose create-client succeeds. -/
def registeredState : BridgeState :=
  { clientConfig := [(0, storedConfig)], initialisedKeys := [0],
    trace := [BCall.createClient "https://x" "0xabc" 1 0 5] }

/-! ## Shape of handler-result dicts -/

/-- A well-formed handler result: no `id` key, and exactly one of
`result`/`error` present. -/
def RDictWF (r : RDict) : Prop :=
  r.id = none ∧
    ((∃ v, r.result = some v ∧ r.error = none) ∨
     (r.result = none ∧ ∃ e, r.error = some e))

theorem RDict_res_wf (v : Option String) : RDictWF (RDict.res v) := by
  refine ⟨rfl, Or.inl ⟨v, rfl, rfl⟩⟩

theorem RDict_err_wf (e : String) : RDictWF (RDict.err e) := by
  refine ⟨rfl, Or.inr ⟨rfl, e, rfl⟩⟩

theorem unwrap_wf (x : StrOrErr) : RDictWF (unwrap x) := by
  unfold unwrap
  cases x.err with
  | some e => exact RDict_err_wf e
  | none => cases x.str with
    | some s => exact RDict_res_wf (some s)
    | none => exact RDict_res_wf none

theorem maybe_error_wf (p : Option String) : RDictWF (maybe_error p) := by
  cases p with
  | some e => exact RDict_err_wf e
  | none => exact RDict_res_wf (some "ok")

/-! ## Symbolic execution of `_ensure_client` -/

/-- Everything a successful (non-raising) return of `register_client` can be:
the configuration map is untouched, exactly one create-client call is traced,
and the index is marked initialised exactly when the backend reported no
error. -/
theorem register_client_ok_spec {B : Backend} {config : ClientConfig} {aki : Int}
    {st : BridgeState} {r : RDict} {st' : BridgeState}
    (h : register_client B config aki st = (Except.ok r, st')) :
    ∃ bu pk,
      st'.clientConfig = st.clientConfig ∧
      st'.trace = st.trace ++ [BCall.createClient bu pk config.chainId aki config.accountIndex] ∧
      ((∃ e, B.createClient bu pk config.chainId aki config.accountIndex = some e ∧
          r = RDict.err e ∧ st'.initialisedKeys = st.initialisedKeys) ∨
       (B.createClient bu pk config.chainId aki config.accountIndex = none ∧
          r = RDict.res (some "ok") ∧ st'.initialisedKeys = aki :: st.initialisedKeys)) := by
  unfold register_client at h
  cases h1 : pyEncode config.baseUrl with
  | error e => rw [h1] at h; simp at h
  | ok bu =>
    rw [h1] at h
    cases h2 : pyEncode config.privateKey with
    | error e => rw [h2] at h; simp at h
    | ok pk =>
      rw [h2] at h
      simp only [] at h
      refine ⟨bu, pk, ?_⟩
      cases h3 : B.createClient bu pk config.chainId aki config.accountIndex with
      | some e =>
        rw [h3] at h
        simp only [Prod.mk.injEq, Except.ok.injEq] at h
        obtain ⟨hr, hst⟩ := h
        subst hr; subst hst
        exact ⟨rfl, by simp [BridgeState.emit], Or.inl ⟨e, rfl, rfl, by simp [BridgeState.emit]⟩⟩
      | none =>
        rw [h3] at h
        simp only [Prod.mk.injEq, Except.ok.injEq] at h
        obtain ⟨hr, hst⟩ := h
        subst hr; subst hst
        exact ⟨rfl, by simp [BridgeState.emit], Or.inr ⟨rfl, rfl, by simp [BridgeState.emit]⟩⟩

/-- Everything a successful (non-raising) return of `_ensure_client` can be.
The three top-level cases mirror the source: "no configuration" failure,
already-initialised short-circuit, and a registration attempt whose create
client call is traced and whose outcome decides the marking. -/
theorem ensure_client_ok_spec {B : Backend} {params : Json} {st : BridgeState}
    {r : RDict} {st' : BridgeState}
    (h : ensure_client B params st = (Except.ok r, st')) :
    ∃ aki, pyGetInt params "apiKeyIndex" = Except.ok aki ∧
      (st'.clientConfig = st.clientConfig ∨
        ∃ cfg, st'.clientConfig = (aki, cfg) :: st.clientConfig) ∧
      (((pyContains params "baseUrl" && pyContains params "privateKey") = false ∧
          st.clientConfig.lookup aki = none ∧
          r = RDict.err "client_not_initialized" ∧ st' = st) ∨
       (r = RDict.res (some "ok") ∧ aki ∈ st.initialisedKeys ∧
          st'.initialisedKeys = st.initialisedKeys ∧ st'.trace = st.trace) ∨
       (∃ bu pk ci ai, aki ∉ st.initialisedKeys ∧
          st'.trace = st.trace ++ [BCall.createClient bu pk ci aki ai] ∧
          ((∃ e, B.createClient bu pk ci aki ai = some e ∧ r = RDict.err e ∧
              st'.initialisedKeys = st.initialisedKeys) ∨
           (B.createClient bu pk ci aki ai = none ∧ r = RDict.res (some "ok") ∧
              st'.initialisedKeys = aki :: st.initialisedKeys)))) := by
  unfold ensure_client at h
  cases haki : pyGetInt params "apiKeyIndex" with
  | error e => rw [haki] at h; simp at h
  | ok aki =>
    rw [haki] at h
    simp only [] at h
    refine ⟨aki, rfl, ?_⟩
    by_cases hc : (pyContains params "baseUrl" && pyContains params "privateKey") = true
    · rw [if_pos hc] at h
      cases h1 : pyGetItem params "baseUrl" with
      | error e => rw [h1] at h; simp at h
      | ok baseUrl =>
        rw [h1] at h
        cases h2 : pyGetItem params "privateKey" with
        | error e => rw [h2] at h; simp at h
        | ok privateKey =>
          rw [h2] at h
          cases h3 : pyGetInt params "chainId" with
          | error e => rw [h3] at h; simp at h
          | ok chainId =>
            rw [h3] at h
            cases h4 : pyGetInt params "accountIndex" with
            | error e => rw [h4] at h; simp at h
            | ok accountIndex =>
              rw [h4] at h
              simp only [] at h
              by_cases hm : aki ∈ st.initialisedKeys
              · rw [if_pos hm] at h
                simp only [Prod.mk.injEq, Except.ok.injEq] at h
                obtain ⟨hr, hst⟩ := h
                subst hr; subst hst
                exact ⟨Or.inr ⟨_, rfl⟩, Or.inr (Or.inl ⟨rfl, hm, rfl, rfl⟩)⟩
              · rw [if_neg hm] at h
                obtain ⟨bu, pk, hcfg, htr, hout⟩ := register_client_ok_spec h
                refine ⟨Or.inr ⟨_, hcfg⟩, Or.inr (Or.inr ⟨bu, pk, _, _, hm, htr, ?_⟩)⟩
                exact hout
    · rw [if_neg hc] at h
      have hc' : (pyContains params "baseUrl" && pyContains params "privateKey") = false :=
        Bool.not_eq_true _ ▸ Bool.of_not_eq_true hc
      cases hlk : st.clientConfig.lookup aki with
      | none =>
        rw [hlk] at h
        simp only [Prod.mk.injEq, Except.ok.injEq] at h
        obtain ⟨hr, hst⟩ := h
        subst hr; subst hst
        exact ⟨Or.inl rfl, Or.inl ⟨hc', rfl, rfl, rfl⟩⟩
      | some config =>
        rw [hlk] at h
        simp only [] at h
        by_cases hm : aki ∈ st.initialisedKeys
        · rw [if_pos hm] at h
          simp only [Prod.mk.injEq, Except.ok.injEq] at h
          obtain ⟨hr, hst⟩ := h
          subst hr; subst hst
          exact ⟨Or.inl rfl, Or.inr (Or.inl ⟨rfl, hm, rfl, rfl⟩)⟩
        · rw [if_neg hm] at h
          obtain ⟨bu, pk, hcfg, htr, hout⟩ := register_client_ok_spec h
          exact ⟨Or.inl hcfg, Or.inr (Or.inr ⟨bu, pk, _, _, hm, htr, hout⟩)⟩

/-- A successful (non-raising) `_ensure_client` always returns a well-formed
one-key result dict. -/
theorem ensure_client_ok_wf {B : Backend} {params : Json} {st : BridgeState}
    {r : RDict} {st' : BridgeState}
    (h : ensure_client B params st = (Except.ok r, st')) : RDictWF r := by
  obtain ⟨aki, -, -, hcase⟩ := ensure_client_ok_spec h
  rcases hcase with ⟨-, -, hr, -⟩ | ⟨hr, -⟩ |
    ⟨bu, pk, ci, ai, -, -, ⟨e, -, hr, -⟩ | ⟨-, hr, -⟩⟩ <;> subst hr
  exacts [RDict_err_wf _, RDict_res_wf _, RDict_err_wf _, RDict_res_wf _]

/-- Shape of a successful (non-raising) `handle_sign_cancel_order` return:
the result dict is well-formed, and whenever it is a success (`result`
present) the backend calls made are exactly an optional create-client, then
one switch, then one sign-cancel-order, in that order. -/
theorem handle_sign_cancel_order_ok_spec {B : Backend} {params : Json}
    {st : BridgeState} {r : RDict} {st' : BridgeState}
    (h : handle_sign_cancel_order B params st = (Except.ok r, st')) :
    RDictWF r ∧
    (r.result.isSome = true →
      ∃ aki pre, pyGetInt params "apiKeyIndex" = Except.ok aki ∧
        (pre = [] ∨ ∃ bu pk ci ai, pre = [BCall.createClient bu pk ci aki ai]) ∧
        ∃ mi oi no,
          st'.trace = st.trace ++ pre ++ [BCall.switchAPIKey aki, BCall.signCancelOrder mi oi no]) := by
  unfold handle_sign_cancel_order at h
  rcases hens : ensure_client B params st with ⟨res1, st1⟩
  rw [hens] at h
  cases res1 with
  | error e => simp at h
  | ok ensure =>
    simp only [] at h
    by_cases he : ensure.error.isSome = true
    · rw [if_pos he] at h
      simp only [Prod.mk.injEq, Except.ok.injEq] at h
      obtain ⟨hr, hst⟩ := h
      subst hr
      have hwf := ensure_client_ok_wf hens
      refine ⟨hwf, fun hres => absurd hres ?_⟩
      rcases hwf.2 with ⟨v, -, herr⟩ | ⟨hresn, -⟩
      · rw [herr] at he; simp at he
      · rw [hresn]; simp
    · rw [if_neg he] at h
      cases haki : pyGetInt params "apiKeyIndex" with
      | error e => rw [haki] at h; simp at h
      | ok aki =>
        rw [haki] at h
        simp only [switch_api_key] at h
        cases hsw : B.switchAPIKey aki with
        | some e =>
          rw [hsw] at h
          simp only [maybe_error] at h
          have hcnd : (RDict.err e).error.isSome = true := rfl
          rw [if_pos hcnd] at h
          simp only [Prod.mk.injEq, Except.ok.injEq] at h
          obtain ⟨hr, hst⟩ := h
          subst hr
          refine ⟨RDict_err_wf _, fun hres => by simp [RDict.err] at hres⟩
        | none =>
          rw [hsw] at h
          simp only [maybe_error] at h
          have hcnd : ¬((RDict.res (some "ok")).error.isSome = true) := by
            simp [RDict.res]
          rw [if_neg hcnd] at h
          cases hargs : signCancelOrderArgs params with
          | error e => rw [hargs] at h; simp at h
          | ok args =>
            rw [hargs] at h
            obtain ⟨mi, oi, no⟩ := args
            simp only [] at h
            simp only [Prod.mk.injEq, Except.ok.injEq] at h
            obtain ⟨hr, hst⟩ := h
            subst hr
            refine ⟨unwrap_wf _, fun _ => ?_⟩
            obtain ⟨aki0, haki0, -, hcase⟩ := ensure_client_ok_spec hens
            rw [haki] at haki0
            injection haki0 with haki0
            subst haki0
            rcases hcase with ⟨-, -, hr1, -⟩ | ⟨hr1, -, -, htr1⟩ |
              ⟨bu, pk, ci, ai, -, htr1, hout⟩
            · subst hr1; simp [RDict.err] at he
            · refine ⟨aki, [], rfl, Or.inl rfl, mi, oi, no, ?_⟩
              subst hst
              simp [BridgeState.emit, htr1]
            · rcases hout with ⟨e, -, hr1, -⟩ | ⟨-, hr1, -⟩
              · subst hr1; simp [RDict.err] at he
              · refine ⟨aki, [BCall.createClient bu pk ci aki ai], rfl,
                  Or.inr ⟨bu, pk, ci, ai, rfl⟩, mi, oi, no, ?_⟩
                subst hst
                simp [BridgeState.emit, htr1]

/-- Shape of a successful (non-raising) `handle_sign_create_order` return,
as for `handle_sign_cancel_order_ok_spec`. -/
theorem handle_sign_create_order_ok_spec {B : Backend} {params : Json}
    {st : BridgeState} {r : RDict} {st' : BridgeState}
    (h : handle_sign_create_order B params st = (Except.ok r, st')) :
    RDictWF r ∧
    (r.result.isSome = true →
      ∃ aki pre, pyGetInt params "apiKeyIndex" = Except.ok aki ∧
        (pre = [] ∨ ∃ bu pk ci ai, pre = [BCall.createClient bu pk ci aki ai]) ∧
        ∃ mi coi ba pr ia ot tif ro tp ex no,
          st'.trace = st.trace ++ pre ++
            [BCall.switchAPIKey aki, BCall.signCreateOrder mi coi ba pr ia ot tif ro tp ex no]) := by
  unfold handle_sign_create_order at h
  rcases hens : ensure_client B params st with ⟨res1, st1⟩
  rw [hens] at h
  cases res1 with
  | error e => simp at h
  | ok ensure =>
    simp only [] at h
    by_cases he : ensure.error.isSome = true
    · rw [if_pos he] at h
      simp only [Prod.mk.injEq, Except.ok.injEq] at h
      obtain ⟨hr, hst⟩ := h
      subst hr
      have hwf := ensure_client_ok_wf hens
      refine ⟨hwf, fun hres => absurd hres ?_⟩
      rcases hwf.2 with ⟨v, -, herr⟩ | ⟨hresn, -⟩
      · rw [herr] at he; simp at he
      · rw [hresn]; simp
    · rw [if_neg he] at h
      cases haki : pyGetInt params "apiKeyIndex" with
      | error e => rw [haki] at h; simp at h
      | ok aki =>
        rw [haki] at h
        simp only [switch_api_key] at h
        cases hsw : B.switchAPIKey aki with
        | some e =>
          rw [hsw] at h
          simp only [maybe_error] at h
          have hcnd : (RDict.err e).error.isSome = true := rfl
          rw [if_pos hcnd] at h
          simp only [Prod.mk.injEq, Except.ok.injEq] at h
          obtain ⟨hr, hst⟩ := h
          subst hr
          refine ⟨RDict_err_wf _, fun hres => by simp [RDict.err] at hres⟩
        | none =>
          rw [hsw] at h
          simp only [maybe_error] at h
          have hcnd : ¬((RDict.res (some "ok")).error.isSome = true) := by
            simp [RDict.res]
          rw [if_neg hcnd] at h
          cases hargs : signCreateOrderArgs params with
          | error e => rw [hargs] at h; simp at h
          | ok args =>
            rw [hargs] at h
            obtain ⟨mi, coi, ba, pr, ia, ot, tif, ro, tp, ex, no⟩ := args
            simp only [] at h
            simp only [Prod.mk.injEq, Except.ok.injEq] at h
            obtain ⟨hr, hst⟩ := h
            subst hr
            refine ⟨unwrap_wf _, fun _ => ?_⟩
            obtain ⟨aki0, haki0, -, hcase⟩ := ensure_client_ok_spec hens
            rw [haki] at haki0
            injection haki0 with haki0
            subst haki0
            rcases hcase with ⟨-, -, hr1, -⟩ | ⟨hr1, -, -, htr1⟩ |
              ⟨bu, pk, ci, ai, -, htr1, hout⟩
            · subst hr1; simp [RDict.err] at he
            · refine ⟨aki, [], rfl, Or.inl rfl, mi, coi, ba, pr, ia, ot, tif, ro, tp,
                ex, no, ?_⟩
              subst hst
              simp [BridgeState.emit, htr1]
            · rcases hout with ⟨e, -, hr1, -⟩ | ⟨-, hr1, -⟩
              · subst hr1; simp [RDict.err] at he
              · refine ⟨aki, [BCall.createClient bu pk ci aki ai], rfl,
                  Or.inr ⟨bu, pk, ci, ai, rfl⟩, mi, coi, ba, pr, ia, ot, tif, ro, tp,
                  ex, no, ?_⟩
                subst hst
                simp [BridgeState.emit, htr1]

/-- Shape of a successful (non-raising) `handle_sign_cancel_all` return,
as for `handle_sign_cancel_order_ok_spec`. -/
theorem handle_sign_cancel_all_ok_spec {B : Backend} {params : Json}
    {st : BridgeState} {r : RDict} {st' : BridgeState}
    (h : handle_sign_cancel_all B params st = (Except.ok r, st')) :
    RDictWF r ∧
    (r.result.isSome = true →
      ∃ aki pre, pyGetInt params "apiKeyIndex" = Except.ok aki ∧
        (pre = [] ∨ ∃ bu pk ci ai, pre = [BCall.createClient bu pk ci aki ai]) ∧
        ∃ tif sched no,
          st'.trace = st.trace ++ pre ++
            [BCall.switchAPIKey aki, BCall.signCancelAllOrders tif sched no]) := by
  unfold handle_sign_cancel_all at h
  rcases hens : ensure_client B params st with ⟨res1, st1⟩
  rw [hens] at h
  cases res1 with
  | error e => simp at h
  | ok ensure =>
    simp only [] at h
    by_cases he : ensure.error.isSome = true
    · rw [if_pos he] at h
      simp only [Prod.mk.injEq, Except.ok.injEq] at h
      obtain ⟨hr, hst⟩ := h
      subst hr
      have hwf := ensure_client_ok_wf hens
      refine ⟨hwf, fun hres => absurd hres ?_⟩
      rcases hwf.2 with ⟨v, -, herr⟩ | ⟨hresn, -⟩
      · rw [herr] at he; simp at he
      · rw [hresn]; simp
    · rw [if_neg he] at h
      cases haki : pyGetInt params "apiKeyIndex" with
      | error e => rw [haki] at h; simp at h
      | ok aki =>
        rw [haki] at h
        simp only [switch_api_key] at h
        cases hsw : B.switchAPIKey aki with
        | some e =>
          rw [hsw] at h
          simp only [maybe_error] at h
          have hcnd : (RDict.err e).error.isSome = true := rfl
          rw [if_pos hcnd] at h
          simp only [Prod.mk.injEq, Except.ok.injEq] at h
          obtain ⟨hr, hst⟩ := h
          subst hr
          refine ⟨RDict_err_wf _, fun hres => by simp [RDict.err] at hres⟩
        | none =>
          rw [hsw] at h
          simp only [maybe_error] at h
          have hcnd : ¬((RDict.res (some "ok")).error.isSome = true) := by
            simp [RDict.res]
          rw [if_neg hcnd] at h
          cases hargs : signCancelAllArgs params with
          | error e => rw [hargs] at h; simp at h
          | ok args =>
            rw [hargs] at h
            obtain ⟨tif, sched, no⟩ := args
            simp only [] at h
            simp only [Prod.mk.injEq, Except.ok.injEq] at h
            obtain ⟨hr, hst⟩ := h
            subst hr
            refine ⟨unwrap_wf _, fun _ => ?_⟩
            obtain ⟨aki0, haki0, -, hcase⟩ := ensure_client_ok_spec hens
            rw [haki] at haki0
            injection haki0 with haki0
            subst haki0
            rcases hcase with ⟨-, -, hr1, -⟩ | ⟨hr1, -, -, htr1⟩ |
              ⟨bu, pk, ci, ai, -, htr1, hout⟩
            · subst hr1; simp [RDict.err] at he
            · refine ⟨aki, [], rfl, Or.inl rfl, tif, sched, no, ?_⟩
              subst hst
              simp [BridgeState.emit, htr1]
            · rcases hout with ⟨e, -, hr1, -⟩ | ⟨-, hr1, -⟩
              · subst hr1; simp [RDict.err] at he
              · refine ⟨aki, [BCall.createClient bu pk ci aki ai], rfl,
                  Or.inr ⟨bu, pk, ci, ai, rfl⟩, tif, sched, no, ?_⟩
                subst hst
                simp [BridgeState.emit, htr1]

/-- Shape of a successful (non-raising) `handle_create_auth_token` return,
as for `handle_sign_cancel_order_ok_spec`. -/
theorem handle_create_auth_token_ok_spec {B : Backend} {params : Json}
    {st : BridgeState} {r : RDict} {st' : BridgeState}
    (h : handle_create_auth_token B params st = (Except.ok r, st')) :
    RDictWF r ∧
    (r.result.isSome = true →
      ∃ aki pre, pyGetInt params "apiKeyIndex" = Except.ok aki ∧
        (pre = [] ∨ ∃ bu pk ci ai, pre = [BCall.createClient bu pk ci aki ai]) ∧
        ∃ dl,
          st'.trace = st.trace ++ pre ++
            [BCall.switchAPIKey aki, BCall.createAuthToken dl]) := by
  unfold handle_create_auth_token at h
  rcases hens : ensure_client B params st with ⟨res1, st1⟩
  rw [hens] at h
  cases res1 with
  | error e => simp at h
  | ok ensure =>
    simp only [] at h
    by_cases he : ensure.error.isSome = true
    · rw [if_pos he] at h
      simp only [Prod.mk.injEq, Except.ok.injEq] at h
      obtain ⟨hr, hst⟩ := h
      subst hr
      have hwf := ensure_client_ok_wf hens
      refine ⟨hwf, fun hres => absurd hres ?_⟩
      rcases hwf.2 with ⟨v, -, herr⟩ | ⟨hresn, -⟩
      · rw [herr] at he; simp at he
      · rw [hresn]; simp
    · rw [if_neg he] at h
      cases haki : pyGetInt params "apiKeyIndex" with
      | error e => rw [haki] at h; simp at h
      | ok aki =>
        rw [haki] at h
        simp only [switch_api_key] at h
        cases hsw : B.switchAPIKey aki with
        | some e =>
          rw [hsw] at h
          simp only [maybe_error] at h
          have hcnd : (RDict.err e).error.isSome = true := rfl
          rw [if_pos hcnd] at h
          simp only [Prod.mk.injEq, Except.ok.injEq] at h
          obtain ⟨hr, hst⟩ := h
          subst hr
          refine ⟨RDict_err_wf _, fun hres => by simp [RDict.err] at hres⟩
        | none =>
          rw [hsw] at h
          simp only [maybe_error] at h
          have hcnd : ¬((RDict.res (some "ok")).error.isSome = true) := by
            simp [RDict.res]
          rw [if_neg hcnd] at h
          cases hargs : pyGetInt params "deadlineMs" with
          | error e => rw [hargs] at h; simp at h
          | ok dl =>
            rw [hargs] at h
            simp only [] at h
            simp only [Prod.mk.injEq, Except.ok.injEq] at h
            obtain ⟨hr, hst⟩ := h
            subst hr
            refine ⟨unwrap_wf _, fun _ => ?_⟩
            obtain ⟨aki0, haki0, -, hcase⟩ := ensure_client_ok_spec hens
            rw [haki] at haki0
            injection haki0 with haki0
            subst haki0
            rcases hcase with ⟨-, -, hr1, -⟩ | ⟨hr1, -, -, htr1⟩ |
              ⟨bu, pk, ci, ai, -, htr1, hout⟩
            · subst hr1; simp [RDict.err] at he
            · refine ⟨aki, [], rfl, Or.inl rfl, dl, ?_⟩
              subst hst
              simp [BridgeState.emit, htr1]
            · rcases hout with ⟨e, -, hr1, -⟩ | ⟨-, hr1, -⟩
              · subst hr1; simp [RDict.err] at he
              · refine ⟨aki, [BCall.createClient bu pk ci aki ai], rfl,
                  Or.inr ⟨bu, pk, ci, ai, rfl⟩, dl, ?_⟩
                subst hst
                simp [BridgeState.emit, htr1]

/-- Inversion for `dispatch`: a registered handler is one of the five. -/
theorem dispatch_inv {B : Backend} {m : String}
    {handler : Json → BridgeState → Except String RDict × BridgeState}
    (hd : dispatch B m = some handler) :
    (m = "create_client" ∧ handler = handle_create_client B) ∨
    (m = "sign_create_order" ∧ handler = handle_sign_create_order B) ∨
    (m = "sign_cancel_order" ∧ handler = handle_sign_cancel_order B) ∨
    (m = "sign_cancel_all" ∧ handler = handle_sign_cancel_all B) ∨
    (m = "create_auth_token" ∧ handler = handle_create_auth_token B) := by
  unfold dispatch at hd
  split at hd
  · exact Or.inl ⟨rfl, (Option.some.injEq _ _ ▸ hd).symm⟩
  · exact Or.inr (Or.inl ⟨rfl, (Option.some.injEq _ _ ▸ hd).symm⟩)
  · exact Or.inr (Or.inr (Or.inl ⟨rfl, (Option.some.injEq _ _ ▸ hd).symm⟩))
  · exact Or.inr (Or.inr (Or.inr (Or.inl ⟨rfl, (Option.some.injEq _ _ ▸ hd).symm⟩)))
  · exact Or.inr (Or.inr (Or.inr (Or.inr ⟨rfl, (Option.some.injEq _ _ ▸ hd).symm⟩)))
  · exact absurd hd (by simp)

/-- Inversion for `handlerFor`: only string methods dispatch. -/
theorem handlerFor_inv {B : Backend} {method : Json}
    {handler : Json → BridgeState → Except String RDict × BridgeState}
    (h : handlerFor B method = some handler) :
    ∃ m, method = Json.str m ∧ dispatch B m = some handler := by
  cases method <;> simp [handlerFor] at h
  case str m => exact ⟨m, rfl, h⟩

/-- Every registered handler that returns (rather than raises) returns a
well-formed result dict. -/
theorem handler_ok_wf {B : Backend} {m : String}
    {handler : Json → BridgeState → Except String RDict × BridgeState}
    (hd : dispatch B m = some handler)
    {params : Json} {st : BridgeState} {r : RDict} {st' : BridgeState}
    (h : handler params st = (Except.ok r, st')) : RDictWF r := by
  rcases dispatch_inv hd with ⟨-, hh⟩ | ⟨-, hh⟩ | ⟨-, hh⟩ | ⟨-, hh⟩ | ⟨-, hh⟩ <;> subst hh
  · exact ensure_client_ok_wf h
  · exact (handle_sign_create_order_ok_spec h).1
  · exact (handle_sign_cancel_order_ok_spec h).1
  · exact (handle_sign_cancel_all_ok_spec h).1
  · exact (handle_create_auth_token_ok_spec h).1

/-- Every registered handler propagates a raise of `_ensure_client` (the
registry and trace are whatever `_ensure_client` left behind). -/
theorem handler_propagates_raise {B : Backend} {m : String}
    {handler : Json → BridgeState → Except String RDict × BridgeState}
    (hd : dispatch B m = some handler)
    {params : Json} {st st1 : BridgeState} {s : String}
    (hens : ensure_client B params st = (Except.error s, st1)) :
    handler params st = (Except.error s, st1) := by
  rcases dispatch_inv hd with ⟨-, hh⟩ | ⟨-, hh⟩ | ⟨-, hh⟩ | ⟨-, hh⟩ | ⟨-, hh⟩ <;> subst hh
  · exact hens
  · unfold handle_sign_create_order; rw [hens]
  · unfold handle_sign_cancel_order; rw [hens]
  · unfold handle_sign_cancel_all; rw [hens]
  · unfold handle_create_auth_token; rw [hens]

/-- Every response emitted by one loop iteration carries an `id` key and
exactly one of `result`/`error`. -/
theorem processLine_emit_shape {B : Backend} {st : BridgeState} {l : LineIn}
    {r : RDict} {st' : BridgeState}
    (h : processLine B st l = Except.ok (some r, st')) :
    r.id.isSome = true ∧
      (((∃ v, r.result = some v) ∧ r.error = none) ∨
       (r.result = none ∧ ∃ e, r.error = some e)) := by
  cases l with
  | blank => simp [processLine] at h
  | malformed detail =>
    simp only [processLine, Except.ok.injEq, Option.some.injEq, Prod.mk.injEq] at h
    obtain ⟨hr, -⟩ := h
    subst hr
    exact ⟨rfl, Or.inr ⟨rfl, _, rfl⟩⟩
  | parsed request =>
    cases request with
    | obj fields =>
      unfold processLine at h
      simp only [] at h
      by_cases hh : jsonHashable (reqGet fields "method" Json.null) = true
      · rw [if_pos hh] at h
        cases hlf : handlerFor B (reqGet fields "method" Json.null) with
        | none =>
          rw [hlf] at h
          simp only [Except.ok.injEq, Option.some.injEq, Prod.mk.injEq] at h
          obtain ⟨hr, -⟩ := h
          subst hr
          exact ⟨rfl, Or.inr ⟨rfl, _, rfl⟩⟩
        | some handler =>
          rw [hlf] at h
          simp only [] at h
          rcases hrun : handler (reqGet fields "params" (Json.obj [])) st with ⟨res, st1⟩
          rw [hrun] at h
          cases res with
          | error exc =>
            simp only [Except.ok.injEq, Option.some.injEq, Prod.mk.injEq] at h
            obtain ⟨hr, -⟩ := h
            subst hr
            exact ⟨rfl, Or.inr ⟨rfl, _, rfl⟩⟩
          | ok outcome =>
            simp only [Except.ok.injEq, Option.some.injEq, Prod.mk.injEq] at h
            obtain ⟨hr, -⟩ := h
            subst hr
            obtain ⟨mn, -, hdm⟩ := handlerFor_inv hlf
            obtain ⟨hid, hx⟩ := handler_ok_wf hdm hrun
            constructor
            · simp [RDict.setId, hid]
            · rcases hx with ⟨v, hres, herr⟩ | ⟨hres, e, herr⟩
              · exact Or.inl ⟨⟨v, by simp [RDict.setId, hid, hres]⟩, by simp [RDict.setId, hid, herr]⟩
              · exact Or.inr ⟨by simp [RDict.setId, hid, hres], e, by simp [RDict.setId, hid, herr]⟩
      · rw [if_neg hh] at h
        simp at h
    | null => simp [processLine] at h
    | bool b => simp [processLine] at h
    | num n => simp [processLine] at h
    | str s => simp [processLine] at h
    | arr elems => simp [processLine] at h

/-- `_ensure_client` raises before any backend call and before any registry
write when `apiKeyIndex` is missing, or when inline configuration is partial
(`baseUrl` and `privateKey` present but `chainId` or `accountIndex` missing):
the state comes back exactly as it went in. -/
theorem ensure_client_partial_raises (B : Backend) {pkvs : List (String × Json)}
    (st : BridgeState)
    (hbad : pkvs.lookup "apiKeyIndex" = none ∨
      ((pkvs.lookup "baseUrl").isSome = true ∧ (pkvs.lookup "privateKey").isSome = true ∧
        (pkvs.lookup "chainId" = none ∨ pkvs.lookup "accountIndex" = none))) :
    ∃ s, ensure_client B (Json.obj pkvs) st = (Except.error s, st) := by
  rcases hbad with hno | ⟨hbu, hpk, hmiss⟩
  · have haki : pyGetInt (Json.obj pkvs) "apiKeyIndex" =
        Except.error ("KeyError: apiKeyIndex") := by
      unfold pyGetInt pyGetItem
      simp only []
      rw [hno]
      rfl
    exact ⟨_, by unfold ensure_client; rw [haki]⟩
  · cases haki : pyGetInt (Json.obj pkvs) "apiKeyIndex" with
    | error e => exact ⟨e, by unfold ensure_client; rw [haki]⟩
    | ok aki =>
      obtain ⟨bv, hbv⟩ := Option.isSome_iff_exists.mp hbu
      obtain ⟨pv, hpv⟩ := Option.isSome_iff_exists.mp hpk
      have hcont : (pyContains (Json.obj pkvs) "baseUrl" &&
          pyContains (Json.obj pkvs) "privateKey") = true := by
        simp [pyContains, hbv, hpv]
      have hgbu : pyGetItem (Json.obj pkvs) "baseUrl" = Except.ok bv := by
        unfold pyGetItem; simp only []; rw [hbv]
      have hgpv : pyGetItem (Json.obj pkvs) "privateKey" = Except.ok pv := by
        unfold pyGetItem; simp only []; rw [hpv]
      rcases hmiss with hch | hai
      · have hci : pyGetInt (Json.obj pkvs) "chainId" =
            Except.error ("KeyError: chainId") := by
          unfold pyGetInt pyGetItem
          simp only []
          rw [hch]
          rfl
        refine ⟨"KeyError: chainId", ?_⟩
        unfold ensure_client
        rw [haki]
        simp only []
        rw [if_pos hcont, hgbu, hgpv, hci]
      · cases hci : pyGetInt (Json.obj pkvs) "chainId" with
        | error e =>
          refine ⟨e, ?_⟩
          unfold ensure_client
          rw [haki]
          simp only []
          rw [if_pos hcont, hgbu, hgpv, hci]
        | ok ci =>
          have hacc : pyGetInt (Json.obj pkvs) "accountIndex" =
              Except.error ("KeyError: accountIndex") := by
            unfold pyGetInt pyGetItem
            simp only []
            rw [hai]
            rfl
          refine ⟨"KeyError: accountIndex", ?_⟩
          unfold ensure_client
          rw [haki]
          simp only []
          rw [if_pos hcont, hgbu, hgpv, hci, hacc]

/-! ## Claims -/

/-- C1, counterexample: the line `5` is not blank and is valid JSON that is
not an object.  Contrary to the claim, no `invalid_json:` response is emitted
for it: `request.get("id")` raises an uncaught `AttributeError`, the loop
dies, and the following well-formed line is never processed (the run emits no
responses at all). -/
theorem C1_counterexample :
    runLines okBackend initState [LineIn.parsed (Json.num 5), goodLine] =
      ([], initState, some "AttributeError: object has no attribute get") := by
  rfl

/-- C1 (amended): only a line that `json.loads` itself fails to decode gets
the `invalid_json:` treatment — one response with a null id, the state
untouched, and processing continuing with the remaining lines.  (A line that
decodes to a non-object value instead raises an uncaught exception, as the
counterexample shows.) -/
theorem C1_amended_invalid_json_continues (B : Backend) (st : BridgeState)
    (detail : String) (ls : List LineIn) :
    runLines B st (LineIn.malformed detail :: ls) =
      (({ id := some Json.null, error := some ("invalid_json:" ++ detail) } : RDict)
          :: (runLines B st ls).1,
       (runLines B st ls).2) := by
  rfl

/-- C7, counterexample: a parsed request object whose `method` is `[]` (not
one of the five registered names).  Contrary to the claim, no
`unknown_method:` response is produced: `HANDLERS.get([])` raises an uncaught
`TypeError`, the loop dies, and the following well-formed line is never
processed. -/
theorem C7_counterexample :
    runLines okBackend initState
      [LineIn.parsed (Json.obj [("id", Json.num 3), ("method", Json.arr [])]), goodLine] =
      ([], initState, some "TypeError: unhashable type") := by
  rfl

/-- C7 (amended): for a parsed request object whose `method` value is
hashable (null, boolean, number or string) and has no registered handler, the
response is `unknown_method:<name>` with the request's id, and the state —
registry and backend trace — is returned exactly unchanged (no handler, no
backend call).  (An unhashable `method` instead raises an uncaught
`TypeError`, as the counterexample shows.) -/
theorem C7_unknown_method_amended {B : Backend} {fields : List (String × Json)}
    {st : BridgeState}
    (hhash : jsonHashable (reqGet fields "method" Json.null) = true)
    (hnone : handlerFor B (reqGet fields "method" Json.null) = none) :
    processLine B st (LineIn.parsed (Json.obj fields)) =
      Except.ok (some { id := some (reqGet fields "id" Json.null),
                        error := some ("unknown_method:" ++
                          pyStr (reqGet fields "method" Json.null)),
                        result := none }, st) := by
  unfold processLine
  simp only []
  rw [if_pos hhash, hnone]

/-- C7 witness: a request with method `"nope"` gets the `unknown_method:nope`
error, its id echoed, and an unchanged state. -/
theorem C7_unknown_method_amended_witness :
    processLine okBackend initState
      (LineIn.parsed (Json.obj [("id", Json.num 3), ("method", Json.str "nope")])) =
      Except.ok (some { id := some (Json.num 3),
                        error := some "unknown_method:nope", result := none }, initState) :=
  C7_unknown_method_amended rfl rfl

/-- C2: for every request to one of the four signing/auth methods whose
response is a success (`result` present), the backend operations performed on
behalf of that request are exactly: create-client zero or one times, then
switch-active-key once, then the operation-specific sign/auth call once, in
that order, with no other backend calls. -/
theorem C2_switch_before_sign {B : Backend} {m : String} (hm : m ∈ signMethods)
    {handler : Json → BridgeState → Except String RDict × BridgeState}
    (hd : dispatch B m = some handler)
    {params : Json} {st : BridgeState} {r : RDict} {st' : BridgeState}
    (hrun : handler params st = (Except.ok r, st'))
    (hres : r.result.isSome = true) :
    ∃ aki pre opc,
      (pre = [] ∨ ∃ bu pk ci ai, pre = [BCall.createClient bu pk ci aki ai]) ∧
      opCall m opc = true ∧
      st'.trace = st.trace ++ pre ++ [BCall.switchAPIKey aki, opc] := by
  simp only [signMethods, List.mem_cons, List.not_mem_nil, or_false] at hm
  rcases hm with rfl | rfl | rfl | rfl
  · have hh : handler = handle_sign_create_order B := by
      simpa [dispatch] using hd.symm
    subst hh
    obtain ⟨-, hspec⟩ := handle_sign_create_order_ok_spec hrun
    obtain ⟨aki, pre, -, hpre, mi, coi, ba, pr, ia, ot, tif, ro, tp, ex, no, htr⟩ :=
      hspec hres
    exact ⟨aki, pre, BCall.signCreateOrder mi coi ba pr ia ot tif ro tp ex no,
      hpre, rfl, htr⟩
  · have hh : handler = handle_sign_cancel_order B := by
      simpa [dispatch] using hd.symm
    subst hh
    obtain ⟨-, hspec⟩ := handle_sign_cancel_order_ok_spec hrun
    obtain ⟨aki, pre, -, hpre, mi, oi, no, htr⟩ := hspec hres
    exact ⟨aki, pre, BCall.signCancelOrder mi oi no, hpre, rfl, htr⟩
  · have hh : handler = handle_sign_cancel_all B := by
      simpa [dispatch] using hd.symm
    subst hh
    obtain ⟨-, hspec⟩ := handle_sign_cancel_all_ok_spec hrun
    obtain ⟨aki, pre, -, hpre, tif, sched, no, htr⟩ := hspec hres
    exact ⟨aki, pre, BCall.signCancelAllOrders tif sched no, hpre, rfl, htr⟩
  · have hh : handler = handle_create_auth_token B := by
      simpa [dispatch] using hd.symm
    subst hh
    obtain ⟨-, hspec⟩ := handle_create_auth_token_ok_spec hrun
    obtain ⟨aki, pre, -, hpre, dl, htr⟩ := hspec hres
    exact ⟨aki, pre, BCall.createAuthToken dl, hpre, rfl, htr⟩

/-- C2 witness: a successful `sign_cancel_order` for the pre-initialised
index 0 records exactly a switch followed by the sign call. -/
theorem C2_switch_before_sign_witness :
    ∃ aki pre opc,
      (pre = [] ∨ ∃ bu pk ci ai, pre = [BCall.createClient bu pk ci aki ai]) ∧
      opCall "sign_cancel_order" opc = true ∧
      ({ clientConfig := [(0, storedConfig)], initialisedKeys := [0],
         trace := [BCall.switchAPIKey 0, BCall.signCancelOrder 1 7 42] } : BridgeState).trace =
        readyState.trace ++ pre ++ [BCall.switchAPIKey aki, opc] :=
  C2_switch_before_sign (show "sign_cancel_order" ∈ signMethods by decide)
    (show dispatch okBackend "sign_cancel_order" =
        some (handle_sign_cancel_order okBackend) from rfl)
    (show handle_sign_cancel_order okBackend cancelOrderParams readyState =
        (Except.ok (RDict.res (some "SIGNED")),
         { clientConfig := [(0, storedConfig)], initialisedKeys := [0],
           trace := [BCall.switchAPIKey 0, BCall.signCancelOrder 1 7 42] }) from rfl)
    (show (RDict.res (some "SIGNED")).result.isSome = true from rfl)

/-- C3: calling `_ensure_client` for an index that is already in the
initialised set succeeds with `"ok"` and performs no backend call at all (the
trace is unchanged), even when the params carry a full inline configuration
that has just overwritten the stored one.  The hypothesis `hcfg` records that
a configuration is available (stored or inline), which the claim presupposes
by speaking of "the stored configuration for that index". -/
theorem C3_idempotent_registration {B : Backend} {params : Json}
    {st : BridgeState} {r : RDict} {st' : BridgeState} {aki : Int}
    (haki : pyGetInt params "apiKeyIndex" = Except.ok aki)
    (hinit : aki ∈ st.initialisedKeys)
    (hcfg : (st.clientConfig.lookup aki).isSome = true ∨
      (pyContains params "baseUrl" && pyContains params "privateKey") = true)
    (hrun : ensure_client B params st = (Except.ok r, st')) :
    r = RDict.res (some "ok") ∧ st'.trace = st.trace ∧
      st'.initialisedKeys = st.initialisedKeys := by
  obtain ⟨aki0, haki0, -, hcase⟩ := ensure_client_ok_spec hrun
  rw [haki] at haki0
  injection haki0 with h0
  subst h0
  rcases hcase with ⟨hc, hlk, -, -⟩ | ⟨hr, -, hkeys, htr⟩ | ⟨bu, pk, ci, ai, hnm, -, -⟩
  · rcases hcfg with hsome | hboth
    · rw [hlk] at hsome; simp at hsome
    · rw [hboth] at hc; simp at hc
  · exact ⟨hr, htr, hkeys⟩
  · exact absurd hinit hnm

/-- C3 witness: re-registering index 0 with full inline configuration while
it is already initialised returns `"ok"` and records no backend call. -/
theorem C3_idempotent_registration_witness :
    RDict.res (some "ok") = RDict.res (some "ok") ∧
      ({ clientConfig := [(0, storedConfig), (0, storedConfig)],
         initialisedKeys := [0], trace := [] } : BridgeState).trace = readyState.trace ∧
      ({ clientConfig := [(0, storedConfig), (0, storedConfig)],
         initialisedKeys := [0], trace := [] } : BridgeState).initialisedKeys =
        readyState.initialisedKeys :=
  C3_idempotent_registration
    (show pyGetInt fullConfigParams "apiKeyIndex" = Except.ok 0 from rfl)
    (show (0 : Int) ∈ readyState.initialisedKeys by decide)
    (Or.inl (show (readyState.clientConfig.lookup (0 : Int)).isSome = true from rfl))
    (show ensure_client okBackend fullConfigParams readyState =
        (Except.ok (RDict.res (some "ok")),
         { clientConfig := [(0, storedConfig), (0, storedConfig)],
           initialisedKeys := [0], trace := [] }) from rfl)

/-- The `_ensure_client` half of C4: with no stored configuration and no
inline configuration, the result is the `client_not_initialized` error and
the state — registry and trace — is returned exactly as it was. -/
theorem ensure_client_not_initialized (B : Backend) {params : Json}
    {st : BridgeState} {aki : Int}
    (haki : pyGetInt params "apiKeyIndex" = Except.ok aki)
    (hlk : st.clientConfig.lookup aki = none)
    (hinline : (pyContains params "baseUrl" && pyContains params "privateKey") = false) :
    ensure_client B params st = (Except.ok (RDict.err "client_not_initialized"), st) := by
  unfold ensure_client
  rw [haki]
  simp only []
  rw [if_neg (by simp [hinline]), hlk]

/-- C4: a signing/auth request for an API-key index with neither stored nor
inline configuration returns the `client_not_initialized` error and leaves
the state — registry and backend trace — exactly unchanged, so no backend
operation of any kind is invoked. -/
theorem C4_missing_configuration {B : Backend} {m : String} (hm : m ∈ signMethods)
    {handler : Json → BridgeState → Except String RDict × BridgeState}
    (hd : dispatch B m = some handler)
    {params : Json} {st : BridgeState} {aki : Int}
    (haki : pyGetInt params "apiKeyIndex" = Except.ok aki)
    (hlk : st.clientConfig.lookup aki = none)
    (hinline : (pyContains params "baseUrl" && pyContains params "privateKey") = false) :
    handler params st = (Except.ok (RDict.err "client_not_initialized"), st) := by
  have hens := ensure_client_not_initialized B haki hlk hinline
  simp only [signMethods, List.mem_cons, List.not_mem_nil, or_false] at hm
  rcases hm with rfl | rfl | rfl | rfl
  · have hh : handler = handle_sign_create_order B := by
      simpa [dispatch] using hd.symm
    subst hh
    unfold handle_sign_create_order
    rw [hens]
    rfl
  · have hh : handler = handle_sign_cancel_order B := by
      simpa [dispatch] using hd.symm
    subst hh
    unfold handle_sign_cancel_order
    rw [hens]
    rfl
  · have hh : handler = handle_sign_cancel_all B := by
      simpa [dispatch] using hd.symm
    subst hh
    unfold handle_sign_cancel_all
    rw [hens]
    rfl
  · have hh : handler = handle_create_auth_token B := by
      simpa [dispatch] using hd.symm
    subst hh
    unfold handle_create_auth_token
    rw [hens]
    rfl

/-- C4 witness: `sign_cancel_order` for the unconfigured index 0 on the fresh
state fails with `client_not_initialized` and leaves the state untouched. -/
theorem C4_missing_configuration_witness :
    handle_sign_cancel_order okBackend cancelOrderParams initState =
      (Except.ok (RDict.err "client_not_initialized"), initState) :=
  C4_missing_configuration (show "sign_cancel_order" ∈ signMethods by decide)
    (show dispatch okBackend "sign_cancel_order" =
        some (handle_sign_cancel_order okBackend) from rfl)
    (show pyGetInt cancelOrderParams "apiKeyIndex" = Except.ok 0 from rfl)
    (show initState.clientConfig.lookup (0 : Int) = none from rfl)
    (show (pyContains cancelOrderParams "baseUrl" &&
        pyContains cancelOrderParams "privateKey") = false from rfl)

/-- C5: when `_ensure_client` reaches the backend create-client operation
(witnessed by the create-client event appended to the trace): a backend error
string is returned as the result error and the index is **not** marked
initialised (so a later call retries registration), while backend success
returns `"ok"` and marks the index initialised. -/
theorem C5_registration_outcome {B : Backend} {params : Json} {st : BridgeState}
    {r : RDict} {st' : BridgeState} {aki : Int} {bu pk : String} {ci ai : Int}
    (hrun : ensure_client B params st = (Except.ok r, st'))
    (haki : pyGetInt params "apiKeyIndex" = Except.ok aki)
    (htrace : st'.trace = st.trace ++ [BCall.createClient bu pk ci aki ai]) :
    (∀ e, B.createClient bu pk ci aki ai = some e →
        r = RDict.err e ∧ st'.initialisedKeys = st.initialisedKeys ∧
          aki ∉ st'.initialisedKeys) ∧
    (B.createClient bu pk ci aki ai = none →
        r = RDict.res (some "ok") ∧ st'.initialisedKeys = aki :: st.initialisedKeys ∧
          aki ∈ st'.initialisedKeys) := by
  obtain ⟨aki0, haki0, -, hcase⟩ := ensure_client_ok_spec hrun
  rw [haki] at haki0
  injection haki0 with h0
  subst h0
  rcases hcase with ⟨-, -, -, hst⟩ | ⟨-, -, -, htr⟩ |
    ⟨bu0, pk0, ci0, ai0, hnm, htr, hout⟩
  · subst hst
    simp at htrace
  · rw [htr] at htrace
    simp at htrace
  · rw [htrace] at htr
    have hl := List.append_cancel_left htr
    injection hl with hcc htl
    injection hcc with h1 h2 h3 h4 h5
    subst h1; subst h2; subst h3; subst h5
    constructor
    · intro e he
      rcases hout with ⟨e0, hbc, hr, hkeys⟩ | ⟨hbc, -, -⟩
      · rw [hbc] at he
        injection he with hee
        subst hee
        exact ⟨hr, hkeys, by rw [hkeys]; exact hnm⟩
      · rw [hbc] at he
        cases he
    · intro hn
      rcases hout with ⟨e0, hbc, -, -⟩ | ⟨hbc, hr, hkeys⟩
      · rw [hbc] at hn
        cases hn
      · exact ⟨hr, hkeys, by rw [hkeys]; exact List.mem_cons_self _ _⟩

/-- C5 witness: registering index 0 on a fresh state against a backend whose
create-client succeeds: the create-client event is traced, and the success
branch applies. -/
theorem C5_registration_outcome_witness :
    (∀ e, okBackend.createClient "https://x" "0xabc" 1 0 5 = some e →
        RDict.res (some "ok") = RDict.err e ∧
          registeredState.initialisedKeys = initState.initialisedKeys ∧
          (0 : Int) ∉ registeredState.initialisedKeys) ∧
    (okBackend.createClient "https://x" "0xabc" 1 0 5 = none →
        RDict.res (some "ok") = RDict.res (some "ok") ∧
          registeredState.initialisedKeys = 0 :: initState.initialisedKeys ∧
          (0 : Int) ∈ registeredState.initialisedKeys) :=
  C5_registration_outcome
    (show ensure_client okBackend fullConfigParams initState =
        (Except.ok (RDict.res (some "ok")), registeredState) from rfl)
    (show pyGetInt fullConfigParams "apiKeyIndex" = Except.ok 0 from rfl)
    (show registeredState.trace =
        initState.trace ++ [BCall.createClient "https://x" "0xabc" 1 0 5] from rfl)

/-- C6: any exception raised while a registered handler executes is caught:
the response for that request is an `exception:`-prefixed error carrying the
original request id, and the loop goes on to process the remaining lines from
the state the handler left behind. -/
theorem C6_handler_exception {B : Backend} {fields : List (String × Json)}
    {m : String}
    {handler : Json → BridgeState → Except String RDict × BridgeState}
    (hmethod : reqGet fields "method" Json.null = Json.str m)
    (hd : dispatch B m = some handler)
    {st : BridgeState} {exc : String} {st' : BridgeState}
    (hrun : handler (reqGet fields "params" (Json.obj [])) st = (Except.error exc, st'))
    (ls : List LineIn) :
    processLine B st (LineIn.parsed (Json.obj fields)) =
      Except.ok (some { id := some (reqGet fields "id" Json.null),
                        error := some ("exception:" ++ exc), result := none }, st') ∧
    runLines B st (LineIn.parsed (Json.obj fields) :: ls) =
      (({ id := some (reqGet fields "id" Json.null),
          error := some ("exception:" ++ exc), result := none } : RDict)
          :: (runLines B st' ls).1,
       (runLines B st' ls).2) := by
  have hproc : processLine B st (LineIn.parsed (Json.obj fields)) =
      Except.ok (some { id := some (reqGet fields "id" Json.null),
                        error := some ("exception:" ++ exc), result := none }, st') := by
    unfold processLine
    simp only []
    rw [hmethod]
    rw [if_pos (show jsonHashable (Json.str m) = true from rfl)]
    rw [show handlerFor B (Json.str m) = some handler from hd]
    simp only []
    rw [hrun]
  refine ⟨hproc, ?_⟩
  simp only [runLines]
  rw [hproc]


/-- C6 witness: a `create_client` request with empty params raises `KeyError`
inside the handler; the response is the `exception:`-prefixed error carrying
id `"abc"`, and the loop terminates normally on end of input. -/
theorem C6_handler_exception_witness :
    processLine okBackend initState
      (LineIn.parsed (Json.obj [("id", Json.str "abc"), ("method", Json.str "create_client")])) =
      Except.ok (some { id := some (Json.str "abc"),
                        error := some "exception:KeyError: apiKeyIndex",
                        result := none }, initState) ∧
    runLines okBackend initState
      [LineIn.parsed (Json.obj [("id", Json.str "abc"), ("method", Json.str "create_client")])] =
      ([{ id := some (Json.str "abc"), error := some "exception:KeyError: apiKeyIndex",
          result := none }], initState, none) :=
  C6_handler_exception
    (show reqGet [("id", Json.str "abc"), ("method", Json.str "create_client")]
        "method" Json.null = Json.str "create_client" from rfl)
    (show dispatch okBackend "create_client" = some (handle_create_client okBackend) from rfl)
    (show handle_create_client okBackend
        (reqGet [("id", Json.str "abc"), ("method", Json.str "create_client")]
          "params" (Json.obj [])) initState =
        (Except.error "KeyError: apiKeyIndex", initState) from rfl)
    []

/-- C8: whenever processing a parsed JSON-object line emits a response, that
response's id is exactly the request's `id` value (JSON null when the field
is absent), on success and error responses alike. -/
theorem C8_id_echo {B : Backend} {st : BridgeState} {fields : List (String × Json)}
    {resp : RDict} {st' : BridgeState}
    (h : processLine B st (LineIn.parsed (Json.obj fields)) =
      Except.ok (some resp, st')) :
    resp.id = some (reqGet fields "id" Json.null) := by
  unfold processLine at h
  simp only [] at h
  by_cases hh : jsonHashable (reqGet fields "method" Json.null) = true
  · rw [if_pos hh] at h
    cases hlf : handlerFor B (reqGet fields "method" Json.null) with
    | none =>
      rw [hlf] at h
      simp only [Except.ok.injEq, Option.some.injEq, Prod.mk.injEq] at h
      obtain ⟨hr, -⟩ := h
      subst hr
      rfl
    | some handler =>
      rw [hlf] at h
      simp only [] at h
      rcases hrun : handler (reqGet fields "params" (Json.obj [])) st with ⟨res, st1⟩
      rw [hrun] at h
      cases res with
      | error exc =>
        simp only [Except.ok.injEq, Option.some.injEq, Prod.mk.injEq] at h
        obtain ⟨hr, -⟩ := h
        subst hr
        rfl
      | ok outcome =>
        simp only [Except.ok.injEq, Option.some.injEq, Prod.mk.injEq] at h
        obtain ⟨hr, -⟩ := h
        subst hr
        obtain ⟨mn, -, hdm⟩ := handlerFor_inv hlf
        obtain ⟨hid, -⟩ := handler_ok_wf hdm hrun
        simp [RDict.setId, hid]
  · rw [if_neg hh] at h
    simp at h

/-- C8 witness: an unknown-method request carrying id `"xyz"` gets a response
whose id is exactly `"xyz"`. -/
theorem C8_id_echo_witness :
    ({ id := some (Json.str "xyz"), error := some "unknown_method:nah",
       result := none } : RDict).id =
      some (reqGet [("id", Json.str "xyz"), ("method", Json.str "nah")] "id" Json.null) :=
  C8_id_echo
    (show processLine okBackend initState
        (LineIn.parsed (Json.obj [("id", Json.str "xyz"), ("method", Json.str "nah")])) =
        Except.ok (some { id := some (Json.str "xyz"),
                          error := some "unknown_method:nah", result := none },
          initState) from rfl)

/-- C9: every response the transport emits carries an `id` field and exactly
one of `result` (a string or JSON null) and `error` (a string) — never both,
never neither. -/
theorem C9_response_shape {B : Backend} {st : BridgeState} {lines : List LineIn}
    {resp : RDict} (h : resp ∈ (runLines B st lines).1) :
    resp.id.isSome = true ∧
      (((∃ v, resp.result = some v) ∧ resp.error = none) ∨
       (resp.result = none ∧ ∃ e, resp.error = some e)) := by
  induction lines generalizing st with
  | nil => simp [runLines] at h
  | cons l ls ih =>
    simp only [runLines] at h
    rcases hp : processLine B st l with exc | p
    · rw [hp] at h
      simp at h
    · obtain ⟨o, st1⟩ := p
      rw [hp] at h
      cases o with
      | none => exact ih h
      | some r =>
        simp only [] at h
        rcases List.mem_cons.mp h with hr | hmem
        · subst hr
          exact processLine_emit_shape hp
        · exact ih hmem

/-- C9 witness: the `invalid_json:` response of a malformed line carries an
id and exactly an error. -/
theorem C9_response_shape_witness :
    ({ id := some Json.null, error := some "invalid_json:boom",
       result := none } : RDict).id.isSome = true ∧
      (((∃ v, ({ id := some Json.null, error := some "invalid_json:boom",
                 result := none } : RDict).result = some v) ∧
        ({ id := some Json.null, error := some "invalid_json:boom",
           result := none } : RDict).error = none) ∨
       (({ id := some Json.null, error := some "invalid_json:boom",
           result := none } : RDict).result = none ∧
        ∃ e, ({ id := some Json.null, error := some "invalid_json:boom",
                result := none } : RDict).error = some e)) :=
  C9_response_shape
    (show ({ id := some Json.null, error := some "invalid_json:boom",
             result := none } : RDict) ∈
        (runLines okBackend initState [LineIn.malformed "boom"]).1 from
      List.Mem.head _)

/-- C10: a request to any of the five handlers whose params (a JSON object)
omit `apiKeyIndex`, or carry both `baseUrl` and `privateKey` while omitting
`chainId` or `accountIndex`, raises inside the handler before any backend
call and before any registry write: the response is an `exception:`-prefixed
error with the request's id, and the state — configuration map, initialised
set and trace — is returned exactly unchanged, so no partial `ClientConfig`
is ever stored. -/
theorem C10_partial_params_no_write {B : Backend} {st : BridgeState}
    {fields : List (String × Json)} {m : String}
    {handler : Json → BridgeState → Except String RDict × BridgeState}
    (hmethod : reqGet fields "method" Json.null = Json.str m)
    (hd : dispatch B m = some handler)
    {pkvs : List (String × Json)}
    (hparams : reqGet fields "params" (Json.obj []) = Json.obj pkvs)
    (hbad : pkvs.lookup "apiKeyIndex" = none ∨
      ((pkvs.lookup "baseUrl").isSome = true ∧ (pkvs.lookup "privateKey").isSome = true ∧
        (pkvs.lookup "chainId" = none ∨ pkvs.lookup "accountIndex" = none))) :
    ∃ s, processLine B st (LineIn.parsed (Json.obj fields)) =
      Except.ok (some { id := some (reqGet fields "id" Json.null),
                        error := some ("exception:" ++ s), result := none }, st) := by
  obtain ⟨s, hens⟩ := ensure_client_partial_raises B st hbad
  have hrun : handler (reqGet fields "params" (Json.obj [])) st =
      (Except.error s, st) := by
    rw [hparams]
    exact handler_propagates_raise hd hens
  refine ⟨s, ?_⟩
  unfold processLine
  simp only []
  rw [hmethod]
  rw [if_pos (show jsonHashable (Json.str m) = true from rfl)]
  rw [show handlerFor B (Json.str m) = some handler from hd]
  simp only []
  rw [show handler (reqGet fields "params" (Json.obj [])) st =
    (Except.error s, st) from hrun]

/-- C10 witness: `sign_cancel_all` with params that carry `baseUrl` and
`privateKey` but no `chainId` raises before any write: the response is the
`exception:`-prefixed error and the state is the untouched fresh state. -/
theorem C10_partial_params_no_write_witness :
    ∃ s, processLine okBackend initState
      (LineIn.parsed (Json.obj
        [("id", Json.num 9), ("method", Json.str "sign_cancel_all"),
         ("params", Json.obj
           [("apiKeyIndex", Json.num 0), ("baseUrl", Json.str "https://x"),
            ("privateKey", Json.str "0xabc")])])) =
      Except.ok (some { id := some (Json.num 9),
                        error := some ("exception:" ++ s), result := none }, initState) :=
  C10_partial_params_no_write
    (show reqGet
        [("id", Json.num 9), ("method", Json.str "sign_cancel_all"),
         ("params", Json.obj
           [("apiKeyIndex", Json.num 0), ("baseUrl", Json.str "https://x"),
            ("privateKey", Json.str "0xabc")])] "method" Json.null =
        Json.str "sign_cancel_all" from rfl)
    (show dispatch okBackend "sign_cancel_all" =
        some (handle_sign_cancel_all okBackend) from rfl)
    (show reqGet
        [("id", Json.num 9), ("method", Json.str "sign_cancel_all"),
         ("params", Json.obj
           [("apiKeyIndex", Json.num 0), ("baseUrl", Json.str "https://x"),
            ("privateKey", Json.str "0xabc")])] "params" (Json.obj []) =
        Json.obj [("apiKeyIndex", Json.num 0), ("baseUrl", Json.str "https://x"),
          ("privateKey", Json.str "0xabc")] from rfl)
    (Or.inr ⟨rfl, rfl, Or.inl rfl⟩)
